import Mathlib

/-!
# Formal model of `salary_app.py`

A shallow embedding of the salary-period calculator: the rate table, the
paid-day counting helper `calculate_paid_days`, and the main entry point
`calculate_salary`, together with theorems settling the specification's
claims about them.

Dates are modelled as natural numbers counting days since 0000-03-01 of the
proleptic Gregorian calendar (the standard "civil" encoding), so that the
`datetime` ordering, `timedelta(days=1)` arithmetic, weekday extraction and
(day, month) extraction used by the Python source are all expressible.
-/

set_option maxRecDepth 2000

namespace SalaryApp

/-- Day number (days since 0000-03-01, proleptic Gregorian) of the civil date
`(y, m, d)`.  Mirrors the standard `days_from_civil` algorithm; valid for
`y ≥ 1`, far below the dates this program uses. -/
def daysFromCivil (y m d : ℕ) : ℕ :=
  let ys := if m ≤ 2 then y - 1 else y
  let era := ys / 400
  let yoe := ys % 400
  let mp := if 2 < m then m - 3 else m + 9
  let doy := (153 * mp + 2) / 5 + (d - 1)
  let doe := yoe * 365 + yoe / 4 - yoe / 100 + doy
  era * 146097 + doe

/-- Civil date `(year, month, day)` of a day number; inverse of
`daysFromCivil`. -/
def civilFromDays (n : ℕ) : ℕ × ℕ × ℕ :=
  let era := n / 146097
  let doe := n % 146097
  let yoe := (doe - doe / 1460 + doe / 36524 - doe / 146096) / 365
  let y := yoe + era * 400
  let doy := doe - (365 * yoe + yoe / 4 - yoe / 100)
  let mp := (5 * doy + 2) / 153
  let d := doy - (153 * mp + 2) / 5 + 1
  let m := if mp < 10 then mp + 3 else mp - 9
  (if m ≤ 2 then y + 1 else y, m, d)

/-- `pandas`/Python weekday: Monday = 0 … Sunday = 6. -/
def pyWeekday (n : ℕ) : ℕ := (n + 2) % 7

/-- The day-of-month component of a day number (`d.day` in the source). -/
def dayOf (n : ℕ) : ℕ := (civilFromDays n).2.2

/-- The month component of a day number (`d.month` in the source). -/
def monthOf (n : ℕ) : ℕ := (civilFromDays n).2.1

/-- `pd.date_range(start, end, freq='D')`: the inclusive list of days from
`s` to `e`; empty when `e < s`. -/
def dateRange (s e : ℕ) : List ℕ := (List.range (e + 1 - s)).map (fun i => s + i)

/-- Python `str.upper()` restricted to the ASCII strings this table uses. -/
def pyUpper (s : String) : String := String.mk (s.data.map Char.toUpper)

/-- Helper for `pyTitle`: the Boolean records whether the previous character
was alphabetic (cased). -/
def pyTitleAux : Bool → List Char → List Char
  | _, [] => []
  | prev, c :: cs =>
    (if c.isAlpha then (if prev then c.toLower else c.toUpper) else c) ::
      pyTitleAux c.isAlpha cs

/-- Python `str.title()` restricted to the ASCII strings this table uses:
each alphabetic character is uppercased when it starts a word and lowercased
otherwise. -/
def pyTitle (s : String) : String := String.mk (pyTitleAux false s.data)

/-- One row of the example dataset `df`: LEVEL, Base Level, Yearly Salary. -/
structure RateEntry where
  level : String
  baseLevel : String
  yearlySalary : ℚ
  deriving DecidableEq, Repr

/-- The example dataset of `salary_app.py` (the `data` dict / `df` frame). -/
def rateTable : List RateEntry := [
  ⟨"A", "Base", 78092.13⟩, ⟨"A", "Base +1", 82474.71⟩, ⟨"A", "Base +2", 86856.20⟩,
  ⟨"A", "Base +3", 91242.03⟩, ⟨"A", "Base +4", 94802.19⟩, ⟨"A", "Base +5", 98366.69⟩,
  ⟨"A", "Base +6", 101926.86⟩, ⟨"A", "Base +7", 105483.78⟩,
  ⟨"B", "Base", 110966.87⟩, ⟨"B", "Base +1", 115078.92⟩, ⟨"B", "Base +2", 119182.31⟩,
  ⟨"B", "Base +3", 123295.44⟩, ⟨"B", "Base +4", 127404.24⟩, ⟨"B", "Base +5", 131514.13⟩,
  ⟨"C", "Base", 135620.77⟩, ⟨"C", "Base +1", 139733.90⟩, ⟨"C", "Base +2", 143838.37⟩,
  ⟨"C", "Base +3", 147952.58⟩, ⟨"C", "Base +4", 152055.98⟩, ⟨"C", "Base +5", 156172.35⟩,
  ⟨"D", "Base", 163016.75⟩, ⟨"D", "Base +1", 168495.51⟩, ⟨"D", "Base +2", 173973.19⟩,
  ⟨"D", "Base +3", 179451.96⟩,
  ⟨"E", "Base", 209591.11⟩]

/-- The row lookup `df[(df['LEVEL'] == …) & (df['Base Level'] == …)]`,
returning the first matching yearly salary. -/
def lookupRow (lv bl : String) : Option ℚ :=
  (rateTable.find? (fun r => r.level == lv && r.baseLevel == bl)).map
    (fun r => r.yearlySalary)

/-- `ON_COST_RATE = 0.377`. -/
def ON_COST_RATE : ℚ := 0.377

/-- `SALARY_INCREASE_DATE = datetime(2026, 7, 1)` as a day number. -/
def SALARY_INCREASE_DATE : ℕ := daysFromCivil 2026 7 1

/-- `SALARY_INCREASE_RATE = 0.052`. -/
def SALARY_INCREASE_RATE : ℚ := 0.052

/-- `ANNUAL_LEAVE_DAYS = 20`. -/
def ANNUAL_LEAVE_DAYS : ℕ := 20

/-- `WORKING_DAYS_PER_YEAR = 227`. -/
def WORKING_DAYS_PER_YEAR : ℕ := 227

/-- `PUBLIC_HOLIDAYS`: the 13 (day, month) pairs of the source. -/
def PUBLIC_HOLIDAYS : List (ℕ × ℕ) := [
  (1, 1), (26, 1), (3, 4), (6, 4), (25, 4), (8, 6),
  (3, 8), (5, 10), (25, 12), (28, 12),
  (29, 12), (30, 12), (31, 12)]

/-- `calculate_paid_days(start_date, end_date)`: the pair
`(len(working_days), total_paid_days)` — weekday (Mon–Fri) days of the
inclusive range that are not public holidays, and that count plus the full
`ANNUAL_LEAVE_DAYS`. -/
def calculate_paid_days (start_date end_date : ℕ) : ℕ × ℕ :=
  let all_days := dateRange start_date end_date
  let weekdays := all_days.filter (fun d => pyWeekday d < 5)
  let holidays_dates := weekdays.filter (fun d => PUBLIC_HOLIDAYS.contains (dayOf d, monthOf d))
  let working_days := weekdays.filter (fun d => !(holidays_dates.contains d))
  (working_days.length, working_days.length + ANNUAL_LEAVE_DAYS)

/-- The record returned by `calculate_salary` on success: the returned dict's
fields plus the function's intermediate values (`salary_before`,
`salary_after`, `total_salary` before rounding), which lines 95–97 compute. -/
structure SalaryResult where
  level : String
  baseLevel : String
  startDate : ℕ
  endDate : ℕ
  fte : ℚ
  workBefore : ℕ
  workAfter : ℕ
  paidBefore : ℕ
  paidAfter : ℕ
  dailySalary : ℚ
  salaryBefore : ℚ
  salaryAfter : ℚ
  totalSalary : ℚ
  dailySalaryRounded : ℚ
  totalSalaryRounded : ℚ
  deriving DecidableEq, Repr, Inhabited

/-- Round half to even (Python's `round` tie rule) of a rational to an
integer. -/
def roundHalfEven (q : ℚ) : ℤ :=
  if Int.fract q < 1 / 2 then ⌊q⌋
  else if 1 / 2 < Int.fract q then ⌊q⌋ + 1
  else if ⌊q⌋ % 2 = 0 then ⌊q⌋ else ⌊q⌋ + 1

/-- `round(x, 2)`: rounding to two decimal places for the displayed fields. -/
def round2 (q : ℚ) : ℚ := (roundHalfEven (q * 100) : ℚ) / 100

/-- The error payload of a failed lookup
(`{"Error": "No matching LEVEL and Base Level found."}`). -/
def lookupFailureMessage : String := "No matching LEVEL and Base Level found."

/-- The three-way `if/elif/else` of lines 80–88: the pair of
`(work, paid)` day counts before and after the increase date. -/
def splitCounts (start_date end_date : ℕ) : (ℕ × ℕ) × (ℕ × ℕ) :=
  if end_date < SALARY_INCREASE_DATE then
    (calculate_paid_days start_date end_date, ((0 : ℕ), (0 : ℕ)))
  else if SALARY_INCREASE_DATE ≤ start_date then
    (((0 : ℕ), (0 : ℕ)), calculate_paid_days start_date end_date)
  else
    (calculate_paid_days start_date (SALARY_INCREASE_DATE - 1),
      calculate_paid_days SALARY_INCREASE_DATE end_date)

/-- `calculate_salary(level, base_level, start_date, end_date, fte)`:
row lookup with `upper()`/`title()` normalization, the three-way range split
at `SALARY_INCREASE_DATE`, the on-cost daily rate, and the salary amounts. -/
def calculate_salary (level baseLevel : String) (start_date end_date : ℕ)
    (fte : ℚ) : Except String SalaryResult :=
  match lookupRow (pyUpper level) (pyTitle baseLevel) with
  | none => Except.error lookupFailureMessage
  | some yearly_salary =>
    let wp := splitCounts start_date end_date
    let daily_salary := (yearly_salary / (WORKING_DAYS_PER_YEAR : ℚ)) * (1 + ON_COST_RATE)
    let salary_before := (wp.1.2 : ℚ) * daily_salary * fte
    let salary_after := (wp.2.2 : ℚ) * daily_salary * (1 + SALARY_INCREASE_RATE) * fte
    Except.ok {
      level := level
      baseLevel := baseLevel
      startDate := start_date
      endDate := end_date
      fte := fte
      workBefore := wp.1.1
      workAfter := wp.2.1
      paidBefore := wp.1.2
      paidAfter := wp.2.2
      dailySalary := daily_salary
      salaryBefore := salary_before
      salaryAfter := salary_after
      totalSalary := salary_before + salary_after
      dailySalaryRounded := round2 daily_salary
      totalSalaryRounded := round2 (salary_before + salary_after) }

/-- The combined working-day test: a Mon–Fri day that is not a public
holiday.  `calculate_paid_days` counts exactly the days of the range
satisfying it (`paid_days_fst_eq_filter` below). -/
def goodDay (d : ℕ) : Bool :=
  decide (pyWeekday d < 5) && !(PUBLIC_HOLIDAYS.contains (dayOf d, monthOf d))

/-- Modelled from the spec: the calendar-day day-counting policy (the
inclusive number of calendar days of a sub-range), which §4.1 step 5 requires
as a selectable alternative but which `src/salary_app.py` does not
implement. -/
def calendarDays (s e : ℕ) : ℕ := (dateRange s e).length

/-- Modelled from the spec: the paid-working-day policy with the *pro-rated*
leave allotment `annual_leave_days_per_year * (sub_range_calendar_days /
365)` that §4.1 step 5 prescribes; `src/salary_app.py` instead adds the full
`ANNUAL_LEAVE_DAYS` unconditionally. -/
def proRataPaidDays (s e : ℕ) : ℚ :=
  ((calculate_paid_days s e).1 : ℚ) +
    (ANNUAL_LEAVE_DAYS : ℚ) * ((calendarDays s e : ℚ) / 365)

theorem contains_iff_mem {α : Type} [BEq α] [LawfulBEq α] {l : List α} {a : α} :
    l.contains a = true ↔ a ∈ l := List.elem_iff

theorem filter_not_contains_filter {α : Type} [BEq α] [LawfulBEq α]
    (l : List α) (p : α → Bool) :
    l.filter (fun d => !((l.filter p).contains d)) = l.filter (fun d => !(p d)) := by
  apply List.filter_congr
  intro x hx
  have hc : (l.filter p).contains x = p x := by
    cases hp : p x
    · apply Bool.eq_false_iff.mpr
      intro hcon
      have hm := (List.mem_filter.mp (contains_iff_mem.mp hcon)).2
      rw [hp] at hm
      exact Bool.false_ne_true hm
    · exact contains_iff_mem.mpr (List.mem_filter.mpr ⟨hx, hp⟩)
  rw [hc]

theorem dateRange_eq_nil {s e : ℕ} (h : e < s) : dateRange s e = [] := by
  unfold dateRange
  have h0 : e + 1 - s = 0 := by omega
  rw [h0]
  rfl

theorem dateRange_append {s m e : ℕ} (h1 : s ≤ m + 1) (h2 : m ≤ e) :
    dateRange s m ++ dateRange (m + 1) e = dateRange s e := by
  unfold dateRange
  have ha : e + 1 - s = (m + 1 - s) + (e - m) := by omega
  rw [ha, List.range_add, List.map_append, List.map_map]
  congr 1
  have hf : ((fun i => s + i) ∘ fun x => (m + 1 - s) + x) = fun i => (m + 1) + i := by
    funext i
    simp only [Function.comp]
    omega
  rw [hf]
  have hb : e + 1 - (m + 1) = e - m := by omega
  rw [hb]

theorem paid_days_fst_eq_filter (s e : ℕ) :
    (calculate_paid_days s e).1 = ((dateRange s e).filter goodDay).length := by
  simp only [calculate_paid_days]
  rw [filter_not_contains_filter, List.filter_filter]
  apply congrArg List.length
  apply List.filter_congr
  intro x hx
  simp [goodDay, Bool.and_comm]

theorem paid_days_snd (s e : ℕ) :
    (calculate_paid_days s e).2 = (calculate_paid_days s e).1 + ANNUAL_LEAVE_DAYS := rfl

theorem paid_fst_split {s m e : ℕ} (h1 : s ≤ m + 1) (h2 : m ≤ e) :
    (calculate_paid_days s m).1 + (calculate_paid_days (m + 1) e).1
      = (calculate_paid_days s e).1 := by
  simp only [paid_days_fst_eq_filter]
  rw [← dateRange_append h1 h2, List.filter_append, List.length_append]

theorem calendarDays_split {s m e : ℕ} (h1 : s ≤ m + 1) (h2 : m ≤ e) :
    calendarDays s m + calendarDays (m + 1) e = calendarDays s e := by
  unfold calendarDays
  rw [← dateRange_append h1 h2, List.length_append]

theorem calculate_paid_days_of_inverted {s e : ℕ} (h : e < s) :
    calculate_paid_days s e = (0, ANNUAL_LEAVE_DAYS) := by
  simp only [calculate_paid_days, dateRange_eq_nil h]
  rfl

theorem calculate_salary_eq_error {l b : String} {s e : ℕ} {f : ℚ}
    (hlk : lookupRow (pyUpper l) (pyTitle b) = none) :
    calculate_salary l b s e f = Except.error lookupFailureMessage := by
  simp only [calculate_salary, hlk]

/-- The record a successful `calculate_salary` call produces, spelled out
as a function of its inputs and the looked-up yearly salary `y`. -/
def okResult (l b : String) (s e : ℕ) (f y : ℚ) : SalaryResult :=
  { level := l, baseLevel := b, startDate := s, endDate := e, fte := f,
    workBefore := (splitCounts s e).1.1, workAfter := (splitCounts s e).2.1,
    paidBefore := (splitCounts s e).1.2, paidAfter := (splitCounts s e).2.2,
    dailySalary := (y / (WORKING_DAYS_PER_YEAR : ℚ)) * (1 + ON_COST_RATE),
    salaryBefore := ((splitCounts s e).1.2 : ℚ)
      * ((y / (WORKING_DAYS_PER_YEAR : ℚ)) * (1 + ON_COST_RATE)) * f,
    salaryAfter := ((splitCounts s e).2.2 : ℚ)
      * ((y / (WORKING_DAYS_PER_YEAR : ℚ)) * (1 + ON_COST_RATE))
      * (1 + SALARY_INCREASE_RATE) * f,
    totalSalary := ((splitCounts s e).1.2 : ℚ)
        * ((y / (WORKING_DAYS_PER_YEAR : ℚ)) * (1 + ON_COST_RATE)) * f
      + ((splitCounts s e).2.2 : ℚ)
        * ((y / (WORKING_DAYS_PER_YEAR : ℚ)) * (1 + ON_COST_RATE))
        * (1 + SALARY_INCREASE_RATE) * f,
    dailySalaryRounded := round2 ((y / (WORKING_DAYS_PER_YEAR : ℚ)) * (1 + ON_COST_RATE)),
    totalSalaryRounded := round2 (((splitCounts s e).1.2 : ℚ)
        * ((y / (WORKING_DAYS_PER_YEAR : ℚ)) * (1 + ON_COST_RATE)) * f
      + ((splitCounts s e).2.2 : ℚ)
        * ((y / (WORKING_DAYS_PER_YEAR : ℚ)) * (1 + ON_COST_RATE))
        * (1 + SALARY_INCREASE_RATE) * f) }

theorem calculate_salary_eq_ok {l b : String} {s e : ℕ} {f y : ℚ}
    (hlk : lookupRow (pyUpper l) (pyTitle b) = some y) :
    calculate_salary l b s e f = Except.ok (okResult l b s e f y) := by
  simp only [calculate_salary, hlk, okResult]

theorem lookupRow_pos {lv bl : String} {y : ℚ} (h : lookupRow lv bl = some y) :
    0 < y := by
  unfold lookupRow at h
  cases hf : rateTable.find? (fun r => r.level == lv && r.baseLevel == bl) with
  | none => rw [hf] at h; exact absurd h (by simp)
  | some r =>
    rw [hf] at h
    have hy := Option.some.inj h
    subst hy
    have hm := List.mem_of_find?_eq_some hf
    fin_cases hm <;> norm_num [rateTable]

def d20260301 : ℕ := daysFromCivil 2026 3 1

def d20260331 : ℕ := daysFromCivil 2026 3 31

def d20260501 : ℕ := daysFromCivil 2026 5 1

def d20260502 : ℕ := daysFromCivil 2026 5 2

def d20260601 : ℕ := daysFromCivil 2026 6 1

def d20260625 : ℕ := daysFromCivil 2026 6 25

def d20260705 : ℕ := daysFromCivil 2026 7 5

def d20260930 : ℕ := daysFromCivil 2026 9 30

theorem lookup_A_Base : lookupRow (pyUpper "A") (pyTitle "Base") = some 78092.13 := by
  rfl

/-- The result of the sample straddling call (grade A / Base, 2026-03-01 to
2026-09-30, FTE 1). -/
def rStraddle : SalaryResult := okResult "A" "Base" d20260301 d20260930 1 78092.13

/-- The result of the same sample call at half FTE, written `(1/2) * 1`. -/
def rStraddleHalf : SalaryResult :=
  okResult "A" "Base" d20260301 d20260930 (1 / 2 * 1) 78092.13

/-- The result of a sample call with an inverted date range. -/
def rInverted : SalaryResult := okResult "A" "Base" d20260502 d20260501 1 78092.13

theorem sampleStraddle_ok :
    calculate_salary "A" "Base" d20260301 d20260930 1 = Except.ok rStraddle :=
  calculate_salary_eq_ok lookup_A_Base

theorem sampleStraddleHalf_ok :
    calculate_salary "A" "Base" d20260301 d20260930 (1 / 2 * 1)
      = Except.ok rStraddleHalf :=
  calculate_salary_eq_ok lookup_A_Base

theorem sampleInverted_ok :
    calculate_salary "A" "Base" d20260502 d20260501 1 = Except.ok rInverted :=
  calculate_salary_eq_ok lookup_A_Base

/-- C1: the code's paid-day count adds the entire fixed annual leave (20
days) to the working-day count of the sub-range, so on the single working
day 2026-06-01 it returns 21 paid days, which differs from the claimed
pro-rated count `1 + 20 * (1 / 365)`. -/
theorem C1_leave_not_prorated :
    calculate_paid_days d20260601 d20260601 = (1, 21) ∧
    ((calculate_paid_days d20260601 d20260601).2 : ℚ)
      ≠ proRataPaidDays d20260601 d20260601 := by
  constructor
  · decide
  · have h1 : calculate_paid_days d20260601 d20260601 = (1, 21) := by decide
    have h2 : calendarDays d20260601 d20260601 = 1 := by decide
    unfold proRataPaidDays
    rw [h1, h2]
    norm_num [ANNUAL_LEAVE_DAYS]

/-- C2 (counterexample): on the straddling range 2026-06-25 … 2026-07-05,
split at the increase date, the sum of the two sub-range paid-day counts
exceeds the whole-range paid-day count by exactly the 20-day annual leave,
so the claimed equality (within a small pro-ration-rounding tolerance)
fails. -/
theorem C2_split_sum_counterexample :
    (calculate_paid_days d20260625 (SALARY_INCREASE_DATE - 1)).2
        + (calculate_paid_days SALARY_INCREASE_DATE d20260705).2
      = (calculate_paid_days d20260625 d20260705).2 + ANNUAL_LEAVE_DAYS ∧
    (calculate_paid_days d20260625 (SALARY_INCREASE_DATE - 1)).2
        + (calculate_paid_days SALARY_INCREASE_DATE d20260705).2
      ≠ (calculate_paid_days d20260625 d20260705).2 := by
  constructor
  · decide
  · decide

/-- C2 (amended): for a straddling range, split-then-sum equals
sum-then-split exactly for the calendar-day policy (modelled from the spec)
and for the code's working-day counts, while the code's paid-day counts
overshoot the undivided range's count by exactly `ANNUAL_LEAVE_DAYS`. -/
theorem C2_split_vs_whole {l b : String} {s e : ℕ} {f : ℚ} {r : SalaryResult}
    (h1 : s < SALARY_INCREASE_DATE) (h2 : SALARY_INCREASE_DATE ≤ e)
    (hok : calculate_salary l b s e f = Except.ok r) :
    calendarDays s (SALARY_INCREASE_DATE - 1) + calendarDays SALARY_INCREASE_DATE e
      = calendarDays s e ∧
    r.workBefore + r.workAfter = (calculate_paid_days s e).1 ∧
    r.paidBefore + r.paidAfter = (calculate_paid_days s e).2 + ANNUAL_LEAVE_DAYS := by
  have hm1 : SALARY_INCREASE_DATE - 1 + 1 = SALARY_INCREASE_DATE := by omega
  have hs1 : s ≤ (SALARY_INCREASE_DATE - 1) + 1 := by omega
  have hs2 : SALARY_INCREASE_DATE - 1 ≤ e := by omega
  have hcal : calendarDays s (SALARY_INCREASE_DATE - 1)
      + calendarDays SALARY_INCREASE_DATE e = calendarDays s e := by
    have h := calendarDays_split hs1 hs2
    rw [hm1] at h
    exact h
  have hwork : (calculate_paid_days s (SALARY_INCREASE_DATE - 1)).1
      + (calculate_paid_days SALARY_INCREASE_DATE e).1
      = (calculate_paid_days s e).1 := by
    have h := paid_fst_split hs1 hs2
    rw [hm1] at h
    exact h
  cases hlk : lookupRow (pyUpper l) (pyTitle b) with
  | none =>
    rw [calculate_salary_eq_error hlk] at hok
    exact Except.noConfusion hok
  | some y =>
    rw [calculate_salary_eq_ok hlk] at hok
    have hr := Except.ok.inj hok
    subst hr
    dsimp only [okResult]
    unfold splitCounts
    rw [if_neg (by omega), if_neg (by omega)]
    dsimp only
    refine ⟨hcal, hwork, ?_⟩
    rw [paid_days_snd s (SALARY_INCREASE_DATE - 1),
      paid_days_snd SALARY_INCREASE_DATE e, paid_days_snd s e]
    omega

/-- C2 (witness): the amended theorem applied to the straddling sample
range 2026-03-01 … 2026-09-30. -/
theorem C2_split_vs_whole_witness :
    (d20260301 < SALARY_INCREASE_DATE ∧ SALARY_INCREASE_DATE ≤ d20260930 ∧
      calculate_salary "A" "Base" d20260301 d20260930 1 = Except.ok rStraddle) ∧
    (calendarDays d20260301 (SALARY_INCREASE_DATE - 1)
        + calendarDays SALARY_INCREASE_DATE d20260930
      = calendarDays d20260301 d20260930 ∧
    rStraddle.workBefore + rStraddle.workAfter
      = (calculate_paid_days d20260301 d20260930).1 ∧
    rStraddle.paidBefore + rStraddle.paidAfter
      = (calculate_paid_days d20260301 d20260930).2 + ANNUAL_LEAVE_DAYS) :=
  ⟨⟨by decide, by decide, sampleStraddle_ok⟩,
    C2_split_vs_whole (by decide) (by decide) sampleStraddle_ok⟩

/-- C3: the code performs no date-order validation: with end 2026-05-01
strictly before start 2026-05-02 it returns a successful result (and the
empty range still yields 20 paid days), instead of a `ValidationError`. -/
theorem C3_inverted_range_accepted :
    (calculate_salary "A" "Base" d20260502 d20260501 1).isOk = true ∧
    calculate_paid_days d20260502 d20260501 = (0, ANNUAL_LEAVE_DAYS) := by
  constructor
  · decide
  · decide

/-- C4: the code performs no FTE validation: with `fte = 2`, outside the
interval (0, 1], it still returns a successful result instead of a
`ValidationError`. -/
theorem C4_fte_not_validated :
    (calculate_salary "A" "Base" d20260301 d20260331 2).isOk = true ∧
    ¬((0 : ℚ) < 2 ∧ (2 : ℚ) ≤ 1) := by
  constructor
  · decide
  · norm_num

/-- C5: every successful result satisfies
`amount_before = days_before * daily_rate * fte`,
`amount_after = days_after * daily_rate * (1 + increase_rate) * fte` and
`total = amount_before + amount_after` with no cross terms. -/
theorem C5_amount_decomposition {l b : String} {s e : ℕ} {f : ℚ}
    {r : SalaryResult} (hok : calculate_salary l b s e f = Except.ok r) :
    r.salaryBefore = (r.paidBefore : ℚ) * r.dailySalary * f ∧
    r.salaryAfter = (r.paidAfter : ℚ) * r.dailySalary * (1 + SALARY_INCREASE_RATE) * f ∧
    r.totalSalary = r.salaryBefore + r.salaryAfter := by
  cases hlk : lookupRow (pyUpper l) (pyTitle b) with
  | none =>
    rw [calculate_salary_eq_error hlk] at hok
    exact Except.noConfusion hok
  | some y =>
    rw [calculate_salary_eq_ok hlk] at hok
    have hr := Except.ok.inj hok
    subst hr
    exact ⟨rfl, rfl, rfl⟩

/-- C5 (witness): the decomposition at the straddling sample call. -/
theorem C5_amount_decomposition_witness :
    calculate_salary "A" "Base" d20260301 d20260930 1 = Except.ok rStraddle ∧
    (rStraddle.salaryBefore = (rStraddle.paidBefore : ℚ) * rStraddle.dailySalary * 1 ∧
    rStraddle.salaryAfter
      = (rStraddle.paidAfter : ℚ) * rStraddle.dailySalary * (1 + SALARY_INCREASE_RATE) * 1 ∧
    rStraddle.totalSalary = rStraddle.salaryBefore + rStraddle.salaryAfter) :=
  ⟨sampleStraddle_ok, C5_amount_decomposition sampleStraddle_ok⟩

/-- C6: the requested range is apportioned at the increase boundary exactly
as claimed: entirely-before ranges land in the "before" counts,
entirely-on-or-after ranges land in the "after" counts, and straddling
ranges split into [start, increase−1] and [increase, end]. -/
theorem C6_range_split {l b : String} {s e : ℕ} {f : ℚ} {r : SalaryResult}
    (hse : s ≤ e) (hok : calculate_salary l b s e f = Except.ok r) :
    (e < SALARY_INCREASE_DATE →
      r.workBefore = (calculate_paid_days s e).1 ∧
      r.paidBefore = (calculate_paid_days s e).2 ∧
      r.workAfter = 0 ∧ r.paidAfter = 0) ∧
    (SALARY_INCREASE_DATE ≤ s →
      r.workBefore = 0 ∧ r.paidBefore = 0 ∧
      r.workAfter = (calculate_paid_days s e).1 ∧
      r.paidAfter = (calculate_paid_days s e).2) ∧
    (s < SALARY_INCREASE_DATE → SALARY_INCREASE_DATE ≤ e →
      r.workBefore = (calculate_paid_days s (SALARY_INCREASE_DATE - 1)).1 ∧
      r.paidBefore = (calculate_paid_days s (SALARY_INCREASE_DATE - 1)).2 ∧
      r.workAfter = (calculate_paid_days SALARY_INCREASE_DATE e).1 ∧
      r.paidAfter = (calculate_paid_days SALARY_INCREASE_DATE e).2) := by
  cases hlk : lookupRow (pyUpper l) (pyTitle b) with
  | none =>
    rw [calculate_salary_eq_error hlk] at hok
    exact Except.noConfusion hok
  | some y =>
    rw [calculate_salary_eq_ok hlk] at hok
    have hr := Except.ok.inj hok
    subst hr
    dsimp only [okResult]
    refine ⟨fun hlt => ?_, fun hge => ?_, fun hs he => ?_⟩
    · unfold splitCounts
      rw [if_pos hlt]
      exact ⟨rfl, rfl, rfl, rfl⟩
    · unfold splitCounts
      rw [if_neg (by omega), if_pos hge]
      exact ⟨rfl, rfl, rfl, rfl⟩
    · unfold splitCounts
      rw [if_neg (by omega), if_neg (by omega)]
      exact ⟨rfl, rfl, rfl, rfl⟩

/-- C6 (witness): the split at the straddling sample range. -/
theorem C6_range_split_witness :
    (d20260301 ≤ d20260930 ∧
      calculate_salary "A" "Base" d20260301 d20260930 1 = Except.ok rStraddle) ∧
    ((d20260930 < SALARY_INCREASE_DATE →
      rStraddle.workBefore = (calculate_paid_days d20260301 d20260930).1 ∧
      rStraddle.paidBefore = (calculate_paid_days d20260301 d20260930).2 ∧
      rStraddle.workAfter = 0 ∧ rStraddle.paidAfter = 0) ∧
    (SALARY_INCREASE_DATE ≤ d20260301 →
      rStraddle.workBefore = 0 ∧ rStraddle.paidBefore = 0 ∧
      rStraddle.workAfter = (calculate_paid_days d20260301 d20260930).1 ∧
      rStraddle.paidAfter = (calculate_paid_days d20260301 d20260930).2) ∧
    (d20260301 < SALARY_INCREASE_DATE → SALARY_INCREASE_DATE ≤ d20260930 →
      rStraddle.workBefore
        = (calculate_paid_days d20260301 (SALARY_INCREASE_DATE - 1)).1 ∧
      rStraddle.paidBefore
        = (calculate_paid_days d20260301 (SALARY_INCREASE_DATE - 1)).2 ∧
      rStraddle.workAfter = (calculate_paid_days SALARY_INCREASE_DATE d20260930).1 ∧
      rStraddle.paidAfter = (calculate_paid_days SALARY_INCREASE_DATE d20260930).2)) :=
  ⟨⟨by decide, sampleStraddle_ok⟩, C6_range_split (by decide) sampleStraddle_ok⟩

/-- C7: the daily rate of every successful call is
`(annual_amount / working_days_per_year) * (1 + on_cost_rate)`, and that
same rate is the unit price of every paid day before and after the
increase. -/
theorem C7_daily_rate {l b : String} {s e : ℕ} {f y : ℚ} {r : SalaryResult}
    (hlk : lookupRow (pyUpper l) (pyTitle b) = some y)
    (hok : calculate_salary l b s e f = Except.ok r) :
    r.dailySalary = (y / (WORKING_DAYS_PER_YEAR : ℚ)) * (1 + ON_COST_RATE) ∧
    r.salaryBefore = (r.paidBefore : ℚ) * r.dailySalary * f ∧
    r.salaryAfter = (r.paidAfter : ℚ) * r.dailySalary * (1 + SALARY_INCREASE_RATE) * f := by
  rw [calculate_salary_eq_ok hlk] at hok
  have hr := Except.ok.inj hok
  subst hr
  exact ⟨rfl, rfl, rfl⟩

/-- C7 (witness): the daily-rate formula at the straddling sample call,
whose looked-up annual amount is 78092.13. -/
theorem C7_daily_rate_witness :
    (lookupRow (pyUpper "A") (pyTitle "Base") = some 78092.13 ∧
      calculate_salary "A" "Base" d20260301 d20260930 1 = Except.ok rStraddle) ∧
    (rStraddle.dailySalary = ((78092.13 : ℚ) / (WORKING_DAYS_PER_YEAR : ℚ)) * (1 + ON_COST_RATE) ∧
    rStraddle.salaryBefore = (rStraddle.paidBefore : ℚ) * rStraddle.dailySalary * 1 ∧
    rStraddle.salaryAfter
      = (rStraddle.paidAfter : ℚ) * rStraddle.dailySalary * (1 + SALARY_INCREASE_RATE) * 1) :=
  ⟨⟨lookup_A_Base, sampleStraddle_ok⟩, C7_daily_rate lookup_A_Base sampleStraddle_ok⟩

/-- C8: a call returns the structured lookup-failure error exactly when the
normalized (grade, step) pair is absent from the rate table; when the pair
is present it returns a full result. -/
theorem C8_lookup_error_iff (l b : String) (s e : ℕ) (f : ℚ) :
    (lookupRow (pyUpper l) (pyTitle b) = none ∧
      calculate_salary l b s e f = Except.error lookupFailureMessage) ∨
    (∃ y, lookupRow (pyUpper l) (pyTitle b) = some y ∧
      ∃ r, calculate_salary l b s e f = Except.ok r) := by
  cases hlk : lookupRow (pyUpper l) (pyTitle b) with
  | none => exact Or.inl ⟨rfl, calculate_salary_eq_error hlk⟩
  | some y => exact Or.inr ⟨y, rfl, ⟨_, calculate_salary_eq_ok hlk⟩⟩

/-- C9: scaling the FTE by a factor k scales the computed total salary
(line 97's full-precision `total_salary`) by exactly k. -/
theorem C9_fte_linearity {l b : String} {s e : ℕ} {k f : ℚ}
    {r rk : SalaryResult} (hk0 : 0 < k) (hk1 : k ≤ 1)
    (hok : calculate_salary l b s e f = Except.ok r)
    (hokk : calculate_salary l b s e (k * f) = Except.ok rk) :
    rk.totalSalary = k * r.totalSalary := by
  cases hlk : lookupRow (pyUpper l) (pyTitle b) with
  | none =>
    rw [calculate_salary_eq_error hlk] at hok
    exact Except.noConfusion hok
  | some y =>
    rw [calculate_salary_eq_ok hlk] at hok
    rw [calculate_salary_eq_ok hlk] at hokk
    have hr := Except.ok.inj hok
    have hrk := Except.ok.inj hokk
    subst hr
    subst hrk
    dsimp only [okResult]
    ring

/-- C9 (witness): halving the FTE of the straddling sample call halves its
total. -/
theorem C9_fte_linearity_witness :
    ((0 : ℚ) < 1 / 2 ∧ (1 / 2 : ℚ) ≤ 1 ∧
      calculate_salary "A" "Base" d20260301 d20260930 1 = Except.ok rStraddle ∧
      calculate_salary "A" "Base" d20260301 d20260930 (1 / 2 * 1)
        = Except.ok rStraddleHalf) ∧
    rStraddleHalf.totalSalary = 1 / 2 * rStraddle.totalSalary :=
  ⟨⟨by norm_num, by norm_num, sampleStraddle_ok, sampleStraddleHalf_ok⟩,
    C9_fte_linearity (by norm_num) (by norm_num) sampleStraddle_ok sampleStraddleHalf_ok⟩

/-- C10: on an inverted date range (end strictly before start) the paid-day
helper returns 0 working days but the full 20-day annual leave, and a
successful `calculate_salary` call on such a range has a strictly positive
total salary. -/
theorem C10_inverted_range_result {l b : String} {s e : ℕ} {f : ℚ}
    {r : SalaryResult} (hinv : e < s) (hf : 0 < f)
    (hok : calculate_salary l b s e f = Except.ok r) :
    calculate_paid_days s e = (0, ANNUAL_LEAVE_DAYS) ∧ 0 < r.totalSalary := by
  refine ⟨calculate_paid_days_of_inverted hinv, ?_⟩
  cases hlk : lookupRow (pyUpper l) (pyTitle b) with
  | none =>
    rw [calculate_salary_eq_error hlk] at hok
    exact Except.noConfusion hok
  | some y =>
    have hy : 0 < y := lookupRow_pos hlk
    rw [calculate_salary_eq_ok hlk] at hok
    have hr := Except.ok.inj hok
    subst hr
    dsimp only [okResult]
    have hd : 0 < (y / (WORKING_DAYS_PER_YEAR : ℚ)) * (1 + ON_COST_RATE) := by
      apply mul_pos
      · apply div_pos hy
        norm_num [WORKING_DAYS_PER_YEAR]
      · norm_num [ON_COST_RATE]
    unfold splitCounts
    by_cases hcase : e < SALARY_INCREASE_DATE
    · rw [if_pos hcase]
      dsimp only
      rw [calculate_paid_days_of_inverted hinv]
      dsimp only
      have hterm : 0 < (ANNUAL_LEAVE_DAYS : ℚ)
          * ((y / (WORKING_DAYS_PER_YEAR : ℚ)) * (1 + ON_COST_RATE)) * f :=
        mul_pos (mul_pos (by norm_num [ANNUAL_LEAVE_DAYS]) hd) hf
      simp only [Nat.cast_zero, zero_mul, add_zero]
      exact hterm
    · rw [if_neg hcase, if_pos (by omega)]
      dsimp only
      rw [calculate_paid_days_of_inverted hinv]
      dsimp only
      have hterm : 0 < (ANNUAL_LEAVE_DAYS : ℚ)
          * ((y / (WORKING_DAYS_PER_YEAR : ℚ)) * (1 + ON_COST_RATE))
          * (1 + SALARY_INCREASE_RATE) * f :=
        mul_pos (mul_pos (mul_pos (by norm_num [ANNUAL_LEAVE_DAYS]) hd)
          (by norm_num [SALARY_INCREASE_RATE])) hf
      simp only [Nat.cast_zero, zero_mul, zero_add]
      exact hterm

/-- C10 (witness): the inverted sample range 2026-05-02 … 2026-05-01. -/
theorem C10_inverted_range_result_witness :
    (d20260501 < d20260502 ∧ (0 : ℚ) < 1 ∧
      calculate_salary "A" "Base" d20260502 d20260501 1 = Except.ok rInverted) ∧
    (calculate_paid_days d20260502 d20260501 = (0, ANNUAL_LEAVE_DAYS) ∧
      0 < rInverted.totalSalary) :=
  ⟨⟨by decide, by norm_num, sampleInverted_ok⟩,
    C10_inverted_range_result (by decide) (by norm_num) sampleInverted_ok⟩

end SalaryApp
